import Mathlib

/-!
Verification of the scalar-field expression-template engine of
`src/fdaPDE/fields/scalar_expressions.h` and of the hyperplane module
exercised by `src/test/src/vector_space_test.cpp`.

The embedding models the `N == Dynamic` instantiation of the templates,
where every `if constexpr (N == Dynamic)` branch of the source is active:
arity is the runtime value `dynamic_inner_size_` and all dimension checks
are runtime checks.  The scalar type `double` is abstracted by a carrier
type `α` (instantiated at `ℝ` for the elementary-function nodes, at `ℚ`
for concrete computations); points are `List α` (`p.rows()` becomes
`p.length`); `fdapde_assert` (src/fdaPDE/utils/assert.h) throws
`std::runtime_error("Condition " #condition " failed")`, modelled by
`Except.error` carrying that message.
-/

namespace FdaPDE

/-- Expression trees of `scalar_expressions.h`, one constructor per node type:
`Scalar<N>` (value, runtime arity), `DiscretizedScalarField<N>` (table column,
current `value_`, runtime arity), `ScalarBinOp` (functor, two operands),
`ScalarUnOp` (functor, operand, runtime arity) and `ScalarNegationOp`
(operand, runtime arity).  The one-column table `DMatrix` backing a
discretized field is modelled by its column `ℕ → α`, `data(i, 0)` being
`data i`. -/
inductive ScalarExprT (α : Type) where
  | scalar (value : α) (n : ℕ)
  | discretized (data : ℕ → α) (value : α) (n : ℕ)
  | binOp (f : α → α → α) (op1 op2 : ScalarExprT α)
  | unOp (f : α → α) (op : ScalarExprT α) (n : ℕ)
  | negOp (op : ScalarExprT α) (n : ℕ)

namespace ScalarExprT

variable {α : Type}

/-- `ScalarExpr::inner_size()` in the Dynamic case: the stored
`dynamic_inner_size_`.  A `ScalarBinOp` passes `op1.inner_size()` to its
`Base` constructor, so its stored arity is the first operand's. -/
def inner_size : ScalarExprT α → ℕ
  | .scalar _ n => n
  | .discretized _ _ n => n
  | .binOp _ op1 _ => op1.inner_size
  | .unOp _ _ n => n
  | .negOp _ n => n

/-- The `operator()` of each node type.
`Scalar::operator()` returns `value_`, ignoring `p`;
`DiscretizedScalarField::operator()` returns the current `value_`, ignoring
`p`; `ScalarBinOp::operator()` first runs
`fdapde_assert(p.rows() == Base::inner_size())` (active since `N == Dynamic`)
and then returns `f_(op1_(p), op2_(p))`;
`ScalarUnOp::operator()` returns `f_(op_(p))`;
`ScalarNegationOp::operator()` returns `-op_(p)`.
A thrown `std::runtime_error` is an `Except.error` with the same message. -/
def evaluate [Neg α] : ScalarExprT α → List α → Except String α
  | .scalar v _, _ => Except.ok v
  | .discretized _ v _, _ => Except.ok v
  | .binOp f op1 op2, p =>
      if p.length = op1.inner_size then
        match op1.evaluate p, op2.evaluate p with
        | Except.ok x, Except.ok y => Except.ok (f x y)
        | Except.error e, _ => Except.error e
        | _, Except.error e => Except.error e
      else Except.error "Condition p.rows() == Base::inner_size() failed"
  | .unOp f op _, p =>
      match op.evaluate p with
      | Except.ok x => Except.ok (f x)
      | Except.error e => Except.error e
  | .negOp op _, p =>
      match op.evaluate p with
      | Except.ok x => Except.ok (-x)
      | Except.error e => Except.error e

/-- The `forward` of each node type, as a tree transformer (the state of a
tree is the `value_` fields of its discretized leaves).
`ScalarExpr::forward` (inherited by `Scalar` and, crucially, by
`ScalarUnOp`, which does not redefine it) does nothing;
`DiscretizedScalarField::forward(i)` sets `value_ = data_->operator()(i, 0)`;
`ScalarBinOp::forward(i)` calls `op1_.forward(i); op2_.forward(i)`;
`ScalarNegationOp::forward(i)` calls `op_.forward(i)`. -/
def forward : ScalarExprT α → ℕ → ScalarExprT α
  | .scalar v n, _ => .scalar v n
  | .discretized d _ n, i => .discretized d (d i) n
  | .binOp f op1 op2, i => .binOp f (op1.forward i) (op2.forward i)
  | .unOp f op n, _ => .unOp f op n
  | .negOp op n, i => .negOp (op.forward i) n

end ScalarExprT

variable {α : Type}

/-- The `ScalarBinOp` constructor in the Dynamic case: after `Base` is seeded
with `op1.inner_size()`, `fdapde_assert(op1_.inner_size() == op2_.inner_size())`
runs; on failure the exception propagates and no node is produced. -/
def mkScalarBinOp (f : α → α → α) (op1 op2 : ScalarExprT α) :
    Except String (ScalarExprT α) :=
  if op1.inner_size = op2.inner_size then Except.ok (ScalarExprT.binOp f op1 op2)
  else Except.error "Condition op1_.inner_size() == op2_.inner_size() failed"

/-- `operator+` between two expressions (`DEFINE_SCALAR_BINARY_OPERATOR` with
`std::plus`). -/
def exprAdd [Add α] (op1 op2 : ScalarExprT α) : Except String (ScalarExprT α) :=
  mkScalarBinOp (fun a b => a + b) op1 op2

/-- `operator-` between two expressions (`std::minus`). -/
def exprSub [Sub α] (op1 op2 : ScalarExprT α) : Except String (ScalarExprT α) :=
  mkScalarBinOp (fun a b => a - b) op1 op2

/-- `operator*` between two expressions (`std::multiplies`). -/
def exprMul [Mul α] (op1 op2 : ScalarExprT α) : Except String (ScalarExprT α) :=
  mkScalarBinOp (fun a b => a * b) op1 op2

/-- `operator/` between two expressions (`std::divides`). -/
def exprDiv [Div α] (op1 op2 : ScalarExprT α) : Except String (ScalarExprT α) :=
  mkScalarBinOp (fun a b => a / b) op1 op2

/-- `ScalarExpr::operator-()`: builds `ScalarNegationOp(get(), dynamic_inner_size_)`. -/
def exprNeg (op : ScalarExprT α) : ScalarExprT α :=
  ScalarExprT.negOp op op.inner_size

/-- A free unary function of `DEFINE_SCALAR_UNARY_OPERATOR`: wraps the operand
in a `ScalarUnOp` carrying the wrapped elementary function and
`op1.get().inner_size()`.  The five instantiations of the macro are
`exprUnary Real.sin`, `exprUnary Real.cos`, `exprUnary Real.tan`,
`exprUnary Real.exp` and `exprUnary Real.log` (the real functions model
`std::sin` etc. on `double`). -/
def exprUnary (f : α → α) (op : ScalarExprT α) : ScalarExprT α :=
  ScalarExprT.unOp f op op.inner_size

/-- The `DiscretizedScalarField` constructor: binds the table and leaves the
member initializer `mutable double value_ = 0` in force (`n` is the arity the
node declares). -/
def mkDiscretizedScalarField [Zero α] (data : ℕ → α) (n : ℕ) : ScalarExprT α :=
  ScalarExprT.discretized data 0 n

/-- Modelled from the spec: the `HyperPlane` class (declared in
`<fdaPDE/geometry.h>` and exercised by `src/test/src/vector_space_test.cpp`)
is not among the provided source files.  Per spec section 3, its state is an
offset point in the `M`-dimensional ambient space together with an
orthonormal basis of `K` vectors spanning the linear part of the affine
subspace (the basis being produced once, at construction, by Gram-Schmidt
orthonormalization of the generating directions). -/
structure HyperPlane (K M : ℕ) (α : Type) where
  offset : Fin M → α
  basis : Fin K → Fin M → α

/-- The ambient inner product `⟨u, v⟩ = Σ u[k] * v[k]` used by the spec's
projection formulas. -/
def dotp {M : ℕ} [CommRing α] (u v : Fin M → α) : α :=
  ∑ k, u k * v k

/-- Modelled from the spec: `Evaluate(local_coords)` maps intrinsic
coordinates to the ambient point `offset + Σ local_coords[i] * basis[i]`. -/
def HyperPlane.evalAt {K M : ℕ} [CommRing α] (H : HyperPlane K M α)
    (l : Fin K → α) : Fin M → α :=
  fun j => H.offset j + ∑ i, l i * H.basis i j

/-- Modelled from the spec: `Project(ambient_point)` is
`offset + Σ ⟨ambient_point - offset, basis[i]⟩ * basis[i]`. -/
def HyperPlane.project {K M : ℕ} [CommRing α] (H : HyperPlane K M α)
    (p : Fin M → α) : Fin M → α :=
  fun j => H.offset j + ∑ i, dotp (fun k => p k - H.offset k) (H.basis i) * H.basis i j

/-- Modelled from the spec: `ProjectOnto(ambient_point)` gives the same
projection in intrinsic coordinates,
`local_coords[i] = ⟨ambient_point - offset, basis[i]⟩`. -/
def HyperPlane.project_onto {K M : ℕ} [CommRing α] (H : HyperPlane K M α)
    (p : Fin M → α) : Fin K → α :=
  fun i => dotp (fun k => p k - H.offset k) (H.basis i)

/-- Successful construction and evaluation of a `ScalarBinOp`: shared helper
for the four arithmetic operators. -/
theorem mkScalarBinOp_eval [Neg α] (f : α → α → α) (op1 op2 : ScalarExprT α)
    (p : List α) (x y : α) (hs : op1.inner_size = op2.inner_size)
    (hp : p.length = op1.inner_size)
    (hx : op1.evaluate p = Except.ok x) (hy : op2.evaluate p = Except.ok y) :
    mkScalarBinOp f op1 op2 = Except.ok (ScalarExprT.binOp f op1 op2) ∧
      (ScalarExprT.binOp f op1 op2).evaluate p = Except.ok (f x y) := by
  constructor
  · simp [mkScalarBinOp, hs]
  · simp [ScalarExprT.evaluate, hp, hx, hy]

/-- C1: for two expressions of equal arity and a point of that arity, the node
built by `operator+` evaluates at `p` to the sum of the operands' evaluations
at `p`, and analogously the nodes built by `operator-`, `operator*` and
`operator/` evaluate to the corresponding binary function applied to the two
operand evaluations. -/
theorem binary_operators_evaluate_pointwise [Field α]
    (op1 op2 : ScalarExprT α) (p : List α) (x y : α)
    (hs : op1.inner_size = op2.inner_size) (hp : p.length = op1.inner_size)
    (hx : op1.evaluate p = Except.ok x) (hy : op2.evaluate p = Except.ok y) :
    (exprAdd op1 op2 = Except.ok (ScalarExprT.binOp (fun a b => a + b) op1 op2) ∧
      (ScalarExprT.binOp (fun a b => a + b) op1 op2).evaluate p = Except.ok (x + y)) ∧
    (exprSub op1 op2 = Except.ok (ScalarExprT.binOp (fun a b => a - b) op1 op2) ∧
      (ScalarExprT.binOp (fun a b => a - b) op1 op2).evaluate p = Except.ok (x - y)) ∧
    (exprMul op1 op2 = Except.ok (ScalarExprT.binOp (fun a b => a * b) op1 op2) ∧
      (ScalarExprT.binOp (fun a b => a * b) op1 op2).evaluate p = Except.ok (x * y)) ∧
    (exprDiv op1 op2 = Except.ok (ScalarExprT.binOp (fun a b => a / b) op1 op2) ∧
      (ScalarExprT.binOp (fun a b => a / b) op1 op2).evaluate p = Except.ok (x / y)) :=
  ⟨mkScalarBinOp_eval _ op1 op2 p x y hs hp hx hy,
   mkScalarBinOp_eval _ op1 op2 p x y hs hp hx hy,
   mkScalarBinOp_eval _ op1 op2 p x y hs hp hx hy,
   mkScalarBinOp_eval _ op1 op2 p x y hs hp hx hy⟩

/-- Witness for C1 at `op1 = Scalar(2, 1)`, `op2 = Scalar(3, 1)`, `p = [0]`. -/
theorem binary_operators_evaluate_pointwise_witness :
    (ScalarExprT.binOp (fun a b => a + b) (ScalarExprT.scalar (2 : ℚ) 1)
      (ScalarExprT.scalar 3 1)).evaluate [0] = Except.ok (2 + 3) :=
  (binary_operators_evaluate_pointwise (ScalarExprT.scalar (2 : ℚ) 1)
    (ScalarExprT.scalar 3 1) [0] 2 3 rfl rfl rfl rfl).1.2

/-- C2 counterexample: a `Scalar` leaf of dynamic arity 2 evaluated at a
1-dimensional point does not fail — `Scalar::operator()` ignores its point
argument and performs no dimension check — refuting the claim that every node
of the tree checks its point's dimension at evaluation. -/
theorem leaf_dimension_mismatch_no_failure :
    [(0 : ℚ)].length ≠ (ScalarExprT.scalar (5 : ℚ) 2).inner_size ∧
      (ScalarExprT.scalar (5 : ℚ) 2).evaluate [0] = Except.ok 5 :=
  ⟨by decide, rfl⟩

/-- C2 (amended): at dynamic arity, only `ScalarBinOp::operator()` checks the
point's dimension against the node's `inner_size()`, failing with the raised
precondition violation on mismatch; `Scalar` and `DiscretizedScalarField`
leaves evaluate without any runtime dimension check, ignoring the point. -/
theorem dimension_check_only_on_binop [Neg α] :
    (∀ (f : α → α → α) (op1 op2 : ScalarExprT α) (p : List α),
      p.length ≠ (ScalarExprT.binOp f op1 op2).inner_size →
      (ScalarExprT.binOp f op1 op2).evaluate p =
        Except.error "Condition p.rows() == Base::inner_size() failed") ∧
    (∀ (v : α) (n : ℕ) (p : List α),
      (ScalarExprT.scalar v n).evaluate p = Except.ok v) ∧
    (∀ (d : ℕ → α) (v : α) (n : ℕ) (p : List α),
      (ScalarExprT.discretized d v n).evaluate p = Except.ok v) := by
  refine ⟨fun f op1 op2 p h => ?_, fun _ _ _ => rfl, fun _ _ _ _ => rfl⟩
  have h' : p.length ≠ op1.inner_size := h
  simp [ScalarExprT.evaluate, h']

/-- Witness for the amended C2: a mismatched binary node evaluation fails. -/
theorem dimension_check_only_on_binop_witness :
    (ScalarExprT.binOp (fun a b => a + b) (ScalarExprT.scalar (1 : ℚ) 2)
      (ScalarExprT.scalar 2 2)).evaluate [0] =
      Except.error "Condition p.rows() == Base::inner_size() failed" :=
  (dimension_check_only_on_binop).1 _ _ _ _ (by decide)

/-- C3: `forward(i)` on a `ScalarBinOp` forwards unconditionally into both
operands (left and right), `forward(i)` on a `ScalarNegationOp` forwards into
its child, and `forward(i)` on a generic `ScalarUnOp` leaves its child — and
hence every discretized leaf beneath it, with its held `value_` — untouched. -/
theorem forward_propagation_asymmetry :
    (∀ (f : α → α → α) (op1 op2 : ScalarExprT α) (i : ℕ),
      (ScalarExprT.binOp f op1 op2).forward i =
        ScalarExprT.binOp f (op1.forward i) (op2.forward i)) ∧
    (∀ (op : ScalarExprT α) (n i : ℕ),
      (ScalarExprT.negOp op n).forward i = ScalarExprT.negOp (op.forward i) n) ∧
    (∀ (f : α → α) (op : ScalarExprT α) (n i : ℕ),
      (ScalarExprT.unOp f op n).forward i = ScalarExprT.unOp f op n) :=
  ⟨fun _ _ _ _ => rfl, fun _ _ _ => rfl, fun _ _ _ _ => rfl⟩

/-- C4: constructing a `ScalarBinOp` from two dynamic-arity operands whose
runtime arities differ raises the descriptive runtime condition of
`fdapde_assert`, which propagates to the caller; no node is produced. -/
theorem binop_construction_arity_mismatch (f : α → α → α)
    (op1 op2 : ScalarExprT α) (h : op1.inner_size ≠ op2.inner_size) :
    mkScalarBinOp f op1 op2 =
      Except.error "Condition op1_.inner_size() == op2_.inner_size() failed" := by
  simp [mkScalarBinOp, h]

/-- Witness for C4 at operands of arities 1 and 3. -/
theorem binop_construction_arity_mismatch_witness :
    mkScalarBinOp (fun a b => a + b) (ScalarExprT.scalar (1 : ℚ) 1)
      (ScalarExprT.scalar 2 3) =
      Except.error "Condition op1_.inner_size() == op2_.inner_size() failed" :=
  binop_construction_arity_mismatch _ _ _ (by decide)

/-- C5: on a discretized leaf, `forward(i)` followed by evaluation at any
point `p` returns the entry at row `i`, column 0 of the table; the point is
ignored and the value last set by `forward` is returned. -/
theorem discretized_forward_then_evaluate [Neg α] (d : ℕ → α) (v : α)
    (n i : ℕ) (p : List α) :
    ((ScalarExprT.discretized d v n).forward i).evaluate p = Except.ok (d i) := rfl

/-- C6: the node produced by unary `operator-` evaluates at `p` to the
negation of its operand's evaluation at `p`. -/
theorem negation_evaluates_pointwise [Neg α] (a : ScalarExprT α)
    (p : List α) (x : α) (hx : a.evaluate p = Except.ok x) :
    (exprNeg a).evaluate p = Except.ok (-x) := by
  simp [exprNeg, ScalarExprT.evaluate, hx]

/-- Witness for C6 at `a = Scalar(2, 1)`, `p = [0]`. -/
theorem negation_evaluates_pointwise_witness :
    (exprNeg (ScalarExprT.scalar (2 : ℚ) 1)).evaluate [0] = Except.ok (-2) :=
  negation_evaluates_pointwise (ScalarExprT.scalar (2 : ℚ) 1) [0] 2 rfl

/-- C7: the node returned by the free function `sin` evaluates at `p` to
`sin(a.evaluate(p))`, and analogously for `cos`, `tan`, `exp` and `log`
with the corresponding standard elementary functions. -/
theorem elementary_functions_evaluate_pointwise (a : ScalarExprT ℝ)
    (p : List ℝ) (x : ℝ) (hx : a.evaluate p = Except.ok x) :
    (exprUnary Real.sin a).evaluate p = Except.ok (Real.sin x) ∧
    (exprUnary Real.cos a).evaluate p = Except.ok (Real.cos x) ∧
    (exprUnary Real.tan a).evaluate p = Except.ok (Real.tan x) ∧
    (exprUnary Real.exp a).evaluate p = Except.ok (Real.exp x) ∧
    (exprUnary Real.log a).evaluate p = Except.ok (Real.log x) := by
  refine ⟨?_, ?_, ?_, ?_, ?_⟩ <;> simp [exprUnary, ScalarExprT.evaluate, hx]

/-- Witness for C7 at `a = Scalar(0, 1)`, `p = [0]`. -/
theorem elementary_functions_evaluate_pointwise_witness :
    (exprUnary Real.sin (ScalarExprT.scalar (0 : ℝ) 1)).evaluate [0] =
        Except.ok (Real.sin 0) ∧
    (exprUnary Real.cos (ScalarExprT.scalar (0 : ℝ) 1)).evaluate [0] =
        Except.ok (Real.cos 0) ∧
    (exprUnary Real.tan (ScalarExprT.scalar (0 : ℝ) 1)).evaluate [0] =
        Except.ok (Real.tan 0) ∧
    (exprUnary Real.exp (ScalarExprT.scalar (0 : ℝ) 1)).evaluate [0] =
        Except.ok (Real.exp 0) ∧
    (exprUnary Real.log (ScalarExprT.scalar (0 : ℝ) 1)).evaluate [0] =
        Except.ok (Real.log 0) :=
  elementary_functions_evaluate_pointwise (ScalarExprT.scalar 0 1) [0] 0 rfl

/-- C8: for every hyperplane (in particular every validly constructed one)
and every ambient point `p`, mapping `p` to intrinsic coordinates with
`ProjectOnto` and back to ambient space with `Evaluate` yields the same
ambient point as `Project(p)`. -/
theorem evalAt_project_onto_roundtrip {K M : ℕ} (H : HyperPlane K M ℝ)
    (p : Fin M → ℝ) :
    H.evalAt (H.project_onto p) = H.project p := rfl

/-- C9: a freshly constructed discretized leaf evaluates to exactly 0 at any
point, because the member initializer sets `value_ = 0` at construction. -/
theorem discretized_initial_value_zero [Zero α] [Neg α] (d : ℕ → α)
    (n : ℕ) (p : List α) :
    (mkDiscretizedScalarField d n).evaluate p = Except.ok 0 := rfl

/-- C10: every successfully constructed `ScalarBinOp` reports `inner_size()`
equal to its first operand's `inner_size()` and, the construction check having
passed, also to its second operand's. -/
theorem binop_inner_size_agreement (f : α → α → α)
    (op1 op2 e : ScalarExprT α) (h : mkScalarBinOp f op1 op2 = Except.ok e) :
    e.inner_size = op1.inner_size ∧ e.inner_size = op2.inner_size := by
  by_cases hs : op1.inner_size = op2.inner_size
  · simp [mkScalarBinOp, hs] at h
    subst h
    exact ⟨rfl, hs⟩
  · simp [mkScalarBinOp, hs] at h

/-- Witness for C10 at two operands of arity 2. -/
theorem binop_inner_size_agreement_witness :
    (ScalarExprT.binOp (fun a b => a * b) (ScalarExprT.scalar (1 : ℚ) 2)
        (ScalarExprT.scalar 2 2)).inner_size =
      (ScalarExprT.scalar (1 : ℚ) 2).inner_size ∧
    (ScalarExprT.binOp (fun a b => a * b) (ScalarExprT.scalar (1 : ℚ) 2)
        (ScalarExprT.scalar 2 2)).inner_size =
      (ScalarExprT.scalar (2 : ℚ) 2).inner_size :=
  binop_inner_size_agreement _ _ _ _ rfl

end FdaPDE
